import Mathlib

/-!
Verification of the lazy CUDA driver-API loading layer
(`c10/cuda/driver_api.cpp` / `driver_api.h`).

The shallow embedding models the process-wide mutable state of the layer
(the `loaded_apis` symbol table, the `cached_driver_version` memo, and the
per-symbol static `entry_point` cells of the macro-generated lazy slots),
the environment (the CUDA runtime calls `cudaGetDriverEntryPoint`,
`cudaDriverGetVersion`, and the native functions reached through resolved
pointers), and each operation as an explicit state transformer that also
emits a trace of observable events (lock acquisition/release, resolver
queries, table/version writes, warnings, native calls).  Mutex discipline
and self-deadlock are captured by a lock-depth argument: the macro-generated
slot body acquires the non-recursive `driver_api_mutex`, so entering its
one-time initialization while the current thread already holds the mutex
never completes.
-/

namespace DriverApi

/-- Native addresses are modelled as naturals; nullness is the `Option` layer
around them (`none` = `nullptr`). -/
abbrev Ptr := Nat

/-- Observable events emitted by the operations of the layer. -/
inductive Event where
  | acquire
  | release
  | resolveCall (name : String) (version : Nat)
  | writeTable (name : String) (val : Option Ptr)
  | writeVersion (v : Int)
  | warn (msg : String)
  | versionQuery
  | nativeCall (name : String) (p : Ptr)
deriving DecidableEq, Repr

/-- The environment: the underlying CUDA runtime.  `rawGetEntryPoint` is the
`C10_CUDA_CHECK(cudaGetDriverEntryPoint...)` call, which either produces an
address or throws a `c10::Error` (the `.error` case).  `rawDriverVersion` is
the `C10_CUDA_CHECK(cudaDriverGetVersion(&version))` call.  `cuInitRet` is
the `CUresult` returned by the native `cuInit(0)` reached through a resolved
pointer, and `errorString` is what the native `cuGetErrorString` writes for a
given result code (`none` models a null `error_string`). -/
structure Env where
  rawGetEntryPoint : String → Nat → Except String Ptr
  rawDriverVersion : Except String Int
  cuInitRet : Ptr → Nat
  errorString : Nat → Option String

/-- The process-wide mutable state of `driver_api.cpp`:
`loaded_apis` (an `unordered_map<string, void*>`; a stored `none` is a null
entry written by `isDriverAPIAvailable`), `cached_driver_version`,
`slotMemo` (the per-symbol static `entry_point` cell of each macro-generated
slot: absent = static not yet initialized, `some v` = initialized, with
`v = none` meaning the static holds `nullptr`), and `slotPub` (the publicly
visible per-symbol function pointer `funcName`: a name is present exactly
when that pointer has been reassigned away from `lazilyLoadAndInvoke` to a
direct native address; the source initializes every such pointer to
`lazilyLoadAndInvoke` and contains no statement reassigning it). -/
structure DriverState where
  loaded_apis : List (String × Option Ptr)
  cached_driver_version : Int
  slotMemo : List (String × Option Ptr)
  slotPub : List (String × Ptr)
deriving DecidableEq, Repr

/-- The state at program start: empty table, version sentinel `-1`, no slot
static initialized, every public pointer at the trampoline. -/
def initState : DriverState := ⟨[], -1, [], []⟩

/-- `unordered_map::find`, on the association-list model. -/
def lookupTable {α : Type} : List (String × α) → String → Option α
  | [], _ => none
  | e :: rest, n => if e.1 = n then some e.2 else lookupTable rest n

/-- `map[key] = value`: overwrite the entry if present, else append it. -/
def setTable {α : Type} : List (String × α) → String → α → List (String × α)
  | [], n, v => [(n, v)]
  | e :: rest, n, v => if e.1 = n then (n, v) :: rest else e :: setTable rest n v

/-- The warning text of `getDriverEntryPoint`. -/
def resolveFailMsg (symbol e : String) : String :=
  "Failed to load CUDA driver API " ++ symbol ++ ": " ++ e

/-- The `TORCH_CHECK` message of the macro-generated slot. -/
def unavailableMsg (name : String) : String :=
  "CUDA driver API " ++ name ++
    " is not available. This may indicate an incompatible CUDA driver version."

/-- `getDriverEntryPoint` (`driver_api.cpp` lines 52-69): try the runtime
lookup; on a `c10::Error` warn and yield a null entry point.  Returns the
resulting entry-point value together with the emitted events. -/
def getDriverEntryPoint (env : Env) (symbol : String) (version : Nat) :
    Option Ptr × List Event :=
  match env.rawGetEntryPoint symbol version with
  | .ok p => (some p, [.resolveCall symbol version])
  | .error e => (none, [.resolveCall symbol version, .warn (resolveFailMsg symbol e)])

/-- `getDriverEntryPoint` with its exception behaviour made explicit: the
body raises a `c10::Error` (the `.error` case of the raw call) but the
`catch` clause converts it to a warning and a null entry point, so the
function as a whole is shown never to propagate an exception. -/
def getDriverEntryPointE (env : Env) (symbol : String) (version : Nat) :
    Except String (Option Ptr × List Event) :=
  match env.rawGetEntryPoint symbol version with
  | .ok p => .ok (some p, [.resolveCall symbol version])
  | .error e => .ok (none, [.resolveCall symbol version, .warn (resolveFailMsg symbol e)])

/-- Result of invoking a lazy slot. -/
inductive SlotResult where
  | invoked (p : Ptr)
  | unavailable (msg : String)
  | deadlock
deriving DecidableEq, Repr

/-- The lambda body of the slot's one-time static initialization
(`driver_api.cpp` lines 110-127, without the memo assignment): under the
lock, consult `loaded_apis`; on a miss call the resolver and store the
result into the table only when it is non-null. -/
def slotResolveOnce (env : Env) (st : DriverState) (name : String) (version : Nat) :
    Option Ptr × DriverState × List Event :=
  match lookupTable st.loaded_apis name with
  | some cached => (cached, st, [Event.acquire, Event.release])
  | none =>
    let r := getDriverEntryPoint env name version
    match r.1 with
    | some p =>
      (some p, { st with loaded_apis := setTable st.loaded_apis name (some p) },
        [Event.acquire] ++ r.2 ++ [Event.writeTable name (some p), Event.release])
    | none => (none, st, [Event.acquire] ++ r.2 ++ [Event.release])

/-- The macro-generated `lazilyLoadAndInvoke` (`driver_api.cpp` lines
105-144).  `lockDepth` is how many times the current thread already holds
`driver_api_mutex`; the one-time initialization acquires that non-recursive
mutex, so entering it with `0 < lockDepth` self-deadlocks.  If the static is
already initialized the mutex is not touched; a null memoized entry point
makes the `TORCH_CHECK` fail with the descriptive message. -/
def lazilyLoadAndInvoke (env : Env) (st : DriverState) (name : String)
    (version : Nat) (lockDepth : Nat) : SlotResult × DriverState × List Event :=
  match lookupTable st.slotMemo name with
  | some (some p) => (.invoked p, st, [Event.nativeCall name p])
  | some none => (.unavailable (unavailableMsg name), st, [])
  | none =>
    if 0 < lockDepth then (.deadlock, st, [Event.acquire])
    else
      let a := slotResolveOnce env st name version
      let st3 : DriverState := { a.2.1 with slotMemo := setTable a.2.1.slotMemo name a.1 }
      match a.1 with
      | some p => (.invoked p, st3, a.2.2 ++ [Event.nativeCall name p])
      | none => (.unavailable (unavailableMsg name), st3, a.2.2)

/-- The value a slot invocation adopts as its entry point: the memoized
static if initialized, else the table entry, else the resolver's result. -/
def adoptedValue (env : Env) (st : DriverState) (name : String) (version : Nat) :
    Option Ptr :=
  match lookupTable st.slotMemo name with
  | some v => v
  | none =>
    match lookupTable st.loaded_apis name with
    | some cached => cached
    | none => (getDriverEntryPoint env name version).1

/-- `isDriverAPIAvailable` (`driver_api.cpp` lines 173-188): under the lock,
return non-nullness of a cached entry; on a miss resolve and store the
outcome unconditionally (even null). -/
def isDriverAPIAvailable (env : Env) (st : DriverState) (funcName : String)
    (minVersion : Nat) : Bool × DriverState × List Event :=
  match lookupTable st.loaded_apis funcName with
  | some cached => (cached.isSome, st, [Event.acquire, Event.release])
  | none =>
    let r := getDriverEntryPoint env funcName minVersion
    (r.1.isSome,
      { st with loaded_apis := setTable st.loaded_apis funcName r.1 },
      [Event.acquire] ++ r.2 ++ [Event.writeTable funcName r.1, Event.release])

/-- `getDriverVersion` (`driver_api.cpp` lines 190-204): return the memo if
`0 ≤` it; otherwise query the runtime, memoize on success, and on a
`c10::Error` warn and return `-1` leaving the memo unchanged.  Note that the
source takes no lock here. -/
def getDriverVersion (env : Env) (st : DriverState) : Int × DriverState × List Event :=
  if 0 ≤ st.cached_driver_version then (st.cached_driver_version, st, [])
  else
    match env.rawDriverVersion with
    | .ok v =>
      (v, { st with cached_driver_version := v },
        [Event.versionQuery, Event.writeVersion v])
    | .error e =>
      (-1, st, [Event.versionQuery, Event.warn ("Failed to get CUDA driver version: " ++ e)])

/-- Outcome of `initializeDriverAPI`. -/
inductive InitResult where
  | done
  | deadlock
deriving DecidableEq, Repr

/-- The warning emitted by the `catch (...)` clause of `initializeDriverAPI`. -/
def initExnMsg : String := "Exception during CUDA driver initialization"

/-- The warning emitted when the native `cuInit` reports a failure. -/
def initFailMsg (es : Option String) : String :=
  "Failed to initialize CUDA driver: " ++ es.getD "Unknown error"

/-- `initializeDriverAPI` (`driver_api.cpp` lines 156-171): acquire
`driver_api_mutex`, then call `cuInit(0)` — which, inside namespace
`at::cuda::driver::detail`, names the lazy slot, not the global driver
symbol — and on a non-success result call the `cuGetErrorString` slot and
warn.  Both inner slot calls therefore run at lock depth 1.  A
`TORCH_CHECK` failure in either slot is swallowed by `catch (...)` into a
warning; an inner attempt to acquire the already-held mutex never returns. -/
def initializeDriverAPI (env : Env) (st : DriverState) :
    InitResult × DriverState × List Event :=
  let a := lazilyLoadAndInvoke env st "cuInit" 11000 1
  match a.1 with
  | .deadlock => (.deadlock, a.2.1, [Event.acquire] ++ a.2.2)
  | .unavailable _ =>
    (.done, a.2.1, [Event.acquire] ++ a.2.2 ++ [Event.warn initExnMsg, Event.release])
  | .invoked p =>
    if env.cuInitRet p = 0 then (.done, a.2.1, [Event.acquire] ++ a.2.2 ++ [Event.release])
    else
      let b := lazilyLoadAndInvoke env a.2.1 "cuGetErrorString" 11000 1
      match b.1 with
      | .deadlock => (.deadlock, b.2.1, [Event.acquire] ++ a.2.2 ++ b.2.2)
      | .unavailable _ =>
        (.done, b.2.1,
          [Event.acquire] ++ a.2.2 ++ b.2.2 ++ [Event.warn initExnMsg, Event.release])
      | .invoked _ =>
        (.done, b.2.1,
          [Event.acquire] ++ a.2.2 ++ b.2.2 ++
            [Event.warn (initFailMsg (env.errorString (env.cuInitRet p))), Event.release])

/-- The operations a client of the layer can perform. -/
inductive Op where
  | slot (name : String) (version : Nat)
  | probe (name : String) (minVersion : Nat)
  | version
  | initAPI
deriving DecidableEq, Repr

/-- Whether a slot result is the self-deadlock. -/
def SlotResult.isDeadlock : SlotResult → Bool
  | .deadlock => true
  | _ => false

/-- Whether an init result is the self-deadlock. -/
def InitResult.isDeadlock : InitResult → Bool
  | .deadlock => true
  | .done => false

/-- Run one operation from a state; the Boolean reports a self-deadlock
(after which the thread, and hence the serial run, never continues). -/
def runOp (env : Env) (st : DriverState) : Op → Bool × DriverState × List Event
  | .slot n v =>
    let a := lazilyLoadAndInvoke env st n v 0
    (a.1.isDeadlock, a.2.1, a.2.2)
  | .probe n v =>
    let a := isDriverAPIAvailable env st n v
    (false, a.2.1, a.2.2)
  | .version =>
    let a := getDriverVersion env st
    (false, a.2.1, a.2.2)
  | .initAPI =>
    let a := initializeDriverAPI env st
    (a.1.isDeadlock, a.2.1, a.2.2)

/-- Run a serial sequence of operations, concatenating their traces and
stopping at a self-deadlock. -/
def run (env : Env) (st : DriverState) : List Op → DriverState × List Event
  | [] => (st, [])
  | op :: rest =>
    let a := runOp env st op
    if a.1 then (a.2.1, a.2.2)
    else
      let b := run env a.2.1 rest
      (b.1, a.2.2 ++ b.2)

/-- Number of resolver queries for a given symbol in a trace. -/
def resolveCount (tr : List Event) (S : String) : Nat :=
  (tr.filter (fun e => match e with
    | Event.resolveCall n _ => n == S
    | _ => false)).length

/-- Net lock depth after a trace, starting from depth `d`. -/
def depthAfter (d : Int) : List Event → Int
  | [] => d
  | .acquire :: rest => depthAfter (d + 1) rest
  | .release :: rest => depthAfter (d - 1) rest
  | _ :: rest => depthAfter d rest

/-- Whether every symbol-table write in a trace happens at lock depth ≥ 1. -/
def tableWritesLocked (d : Int) : List Event → Bool
  | [] => true
  | .acquire :: rest => tableWritesLocked (d + 1) rest
  | .release :: rest => tableWritesLocked (d - 1) rest
  | .writeTable _ _ :: rest => decide (1 ≤ d) && tableWritesLocked d rest
  | _ :: rest => tableWritesLocked d rest

/-- Whether every symbol-table write AND every driver-version write in a
trace happens at lock depth ≥ 1. -/
def allWritesLocked (d : Int) : List Event → Bool
  | [] => true
  | .acquire :: rest => allWritesLocked (d + 1) rest
  | .release :: rest => allWritesLocked (d - 1) rest
  | .writeTable _ _ :: rest => decide (1 ≤ d) && allWritesLocked d rest
  | .writeVersion _ :: rest => decide (1 ≤ d) && allWritesLocked d rest
  | _ :: rest => allWritesLocked d rest

/-- The two logical states the spec attributes to a slot's public pointer. -/
inductive SlotPub where
  | trampoline
  | direct (p : Ptr)
deriving DecidableEq, Repr

/-- The publicly visible function-pointer value of a declared slot. -/
def pubOf (st : DriverState) (name : String) : SlotPub :=
  match lookupTable st.slotPub name with
  | some p => .direct p
  | none => .trampoline

/-- Per-symbol progress measure: how many of the two caches (slot static,
symbol table) already have an entry for `S`. -/
def flagSum (st : DriverState) (S : String) : Nat :=
  (if (lookupTable st.slotMemo S).isSome then 1 else 0) +
    (if (lookupTable st.loaded_apis S).isSome then 1 else 0)

/-- A runtime in which every lookup fails with a `c10::Error`. -/
def envFail : Env :=
  ⟨fun _ _ => .error "symbol not found", .error "no driver", fun _ => 0, fun _ => none⟩

/-- A runtime in which every lookup succeeds at address 7 and the version
query reports 12040. -/
def envOk7 : Env :=
  ⟨fun _ _ => .ok 7, .ok 12040, fun _ => 0, fun _ => some "ok"⟩

/-! ### Association-list lemmas -/

theorem lookupTable_setTable_self {α : Type} (t : List (String × α)) (n : String) (v : α) :
    lookupTable (setTable t n v) n = some v := by
  induction t with
  | nil => simp [setTable, lookupTable]
  | cons e rest ih =>
    by_cases h : e.1 = n
    · simp [setTable, lookupTable, h]
    · simp [setTable, lookupTable, h, ih]

theorem lookupTable_setTable_of_ne {α : Type} (t : List (String × α)) {n m : String}
    (h : n ≠ m) (v : α) : lookupTable (setTable t n v) m = lookupTable t m := by
  induction t with
  | nil => simp [setTable, lookupTable, h]
  | cons e rest ih =>
    by_cases he : e.1 = n
    · simp [setTable, lookupTable, he, h, ih]
    · simp [setTable, lookupTable, he, ih]

theorem lookupTable_setTable_preserve {α : Type} {t : List (String × α)} {S n : String}
    {v : α} (h1 : lookupTable t S = some v) (h2 : lookupTable t n = none) (w : α) :
    lookupTable (setTable t n w) S = some v := by
  have hne : n ≠ S := by
    intro he
    rw [he, h1] at h2
    exact Option.noConfusion h2
  rw [lookupTable_setTable_of_ne t hne w, h1]

/-! ### Trace-metric lemmas -/

theorem resolveCount_append (t1 t2 : List Event) (S : String) :
    resolveCount (t1 ++ t2) S = resolveCount t1 S + resolveCount t2 S := by
  simp [resolveCount, List.filter_append]

theorem resolveCount_nil (S : String) : resolveCount [] S = 0 := rfl

theorem resolveCount_acquire (rest : List Event) (S : String) :
    resolveCount (Event.acquire :: rest) S = resolveCount rest S := by
  simp [resolveCount, List.filter]

theorem resolveCount_release (rest : List Event) (S : String) :
    resolveCount (Event.release :: rest) S = resolveCount rest S := by
  simp [resolveCount, List.filter]

theorem resolveCount_writeTable (n : String) (v : Option Ptr) (rest : List Event) (S : String) :
    resolveCount (Event.writeTable n v :: rest) S = resolveCount rest S := by
  simp [resolveCount, List.filter]

theorem resolveCount_writeVersion (v : Int) (rest : List Event) (S : String) :
    resolveCount (Event.writeVersion v :: rest) S = resolveCount rest S := by
  simp [resolveCount, List.filter]

theorem resolveCount_warn (m : String) (rest : List Event) (S : String) :
    resolveCount (Event.warn m :: rest) S = resolveCount rest S := by
  simp [resolveCount, List.filter]

theorem resolveCount_versionQuery (rest : List Event) (S : String) :
    resolveCount (Event.versionQuery :: rest) S = resolveCount rest S := by
  simp [resolveCount, List.filter]

theorem resolveCount_nativeCall (n : String) (p : Ptr) (rest : List Event) (S : String) :
    resolveCount (Event.nativeCall n p :: rest) S = resolveCount rest S := by
  simp [resolveCount, List.filter]

theorem resolveCount_resolveCall (m : String) (w : Nat) (rest : List Event) (S : String) :
    resolveCount (Event.resolveCall m w :: rest) S =
      (if m = S then 1 else 0) + resolveCount rest S := by
  by_cases h : m = S
  · simp [resolveCount, List.filter, h]
    omega
  · have hb : (m == S) = false := beq_eq_false_iff_ne.mpr h
    simp [resolveCount, List.filter, hb, h]

theorem getDriverEntryPoint_resolveCount (env : Env) (n : String) (v : Nat) (S : String) :
    resolveCount (getDriverEntryPoint env n v).2 S = if n = S then 1 else 0 := by
  rcases hr : env.rawGetEntryPoint n v with p | e <;>
    simp only [getDriverEntryPoint, hr, resolveCount, List.filter] <;>
    by_cases h : n = S
  · simp [h]
  · have hb : (n == S) = false := beq_eq_false_iff_ne.mpr h
    simp [hb, h]
  · simp [h]
  · have hb : (n == S) = false := beq_eq_false_iff_ne.mpr h
    simp [hb, h]

theorem depthAfter_append (d : Int) (t1 t2 : List Event) :
    depthAfter d (t1 ++ t2) = depthAfter (depthAfter d t1) t2 := by
  induction t1 generalizing d with
  | nil => rfl
  | cons e rest ih => cases e <;> simp [depthAfter, ih]

theorem tableWritesLocked_append (d : Int) (t1 t2 : List Event) :
    tableWritesLocked d (t1 ++ t2) =
      (tableWritesLocked d t1 && tableWritesLocked (depthAfter d t1) t2) := by
  induction t1 generalizing d with
  | nil => simp [tableWritesLocked, depthAfter]
  | cons e rest ih =>
    cases e <;> simp [tableWritesLocked, depthAfter, ih, Bool.and_assoc]

theorem getDriverEntryPoint_depthAfter (env : Env) (n : String) (v : Nat) (d : Int) :
    depthAfter d (getDriverEntryPoint env n v).2 = d := by
  rcases hr : env.rawGetEntryPoint n v with p | e <;> simp [getDriverEntryPoint, hr, depthAfter]

theorem getDriverEntryPoint_tableWritesLocked (env : Env) (n : String) (v : Nat) (d : Int) :
    tableWritesLocked d (getDriverEntryPoint env n v).2 = true := by
  rcases hr : env.rawGetEntryPoint n v with p | e <;>
    simp [getDriverEntryPoint, hr, tableWritesLocked]

/-! ### Equation lemmas for the lazy slot -/

theorem slot_eq_fast_some {env : Env} {st : DriverState} {n : String} {p : Ptr}
    (h : lookupTable st.slotMemo n = some (some p)) (v d : Nat) :
    lazilyLoadAndInvoke env st n v d = (.invoked p, st, [Event.nativeCall n p]) := by
  simp [lazilyLoadAndInvoke, h]

theorem slot_eq_fast_none {env : Env} {st : DriverState} {n : String}
    (h : lookupTable st.slotMemo n = some none) (v d : Nat) :
    lazilyLoadAndInvoke env st n v d = (.unavailable (unavailableMsg n), st, []) := by
  simp [lazilyLoadAndInvoke, h]

theorem slot_eq_dead {env : Env} {st : DriverState} {n : String} {d : Nat}
    (h : lookupTable st.slotMemo n = none) (hd : 0 < d) (v : Nat) :
    lazilyLoadAndInvoke env st n v d = (.deadlock, st, [Event.acquire]) := by
  simp [lazilyLoadAndInvoke, h, hd]

theorem slot_eq_hit_some {env : Env} {st : DriverState} {n : String} {p : Ptr}
    (h : lookupTable st.slotMemo n = none) (ht : lookupTable st.loaded_apis n = some (some p))
    (v : Nat) :
    lazilyLoadAndInvoke env st n v 0 =
      (.invoked p, { st with slotMemo := setTable st.slotMemo n (some p) },
        [Event.acquire, Event.release, Event.nativeCall n p]) := by
  simp [lazilyLoadAndInvoke, h, slotResolveOnce, ht]

theorem slot_eq_hit_none {env : Env} {st : DriverState} {n : String}
    (h : lookupTable st.slotMemo n = none) (ht : lookupTable st.loaded_apis n = some none)
    (v : Nat) :
    lazilyLoadAndInvoke env st n v 0 =
      (.unavailable (unavailableMsg n), { st with slotMemo := setTable st.slotMemo n none },
        [Event.acquire, Event.release]) := by
  simp [lazilyLoadAndInvoke, h, slotResolveOnce, ht]

theorem slot_eq_miss_some {env : Env} {st : DriverState} {n : String} {p : Ptr}
    (h : lookupTable st.slotMemo n = none) (ht : lookupTable st.loaded_apis n = none)
    {v : Nat} (hr : (getDriverEntryPoint env n v).1 = some p) :
    lazilyLoadAndInvoke env st n v 0 =
      (.invoked p,
        { st with loaded_apis := setTable st.loaded_apis n (some p),
                  slotMemo := setTable st.slotMemo n (some p) },
        [Event.acquire] ++ (getDriverEntryPoint env n v).2 ++
          [Event.writeTable n (some p), Event.release, Event.nativeCall n p]) := by
  simp [lazilyLoadAndInvoke, h, slotResolveOnce, ht, hr]

theorem slot_eq_miss_none {env : Env} {st : DriverState} {n : String}
    (h : lookupTable st.slotMemo n = none) (ht : lookupTable st.loaded_apis n = none)
    {v : Nat} (hr : (getDriverEntryPoint env n v).1 = none) :
    lazilyLoadAndInvoke env st n v 0 =
      (.unavailable (unavailableMsg n), { st with slotMemo := setTable st.slotMemo n none },
        [Event.acquire] ++ (getDriverEntryPoint env n v).2 ++ [Event.release]) := by
  simp [lazilyLoadAndInvoke, h, slotResolveOnce, ht, hr]

/-! ### Equation lemmas for the probe and the version query -/

theorem probe_eq_hit {env : Env} {st : DriverState} {n : String} {c : Option Ptr}
    (h : lookupTable st.loaded_apis n = some c) (v : Nat) :
    isDriverAPIAvailable env st n v = (c.isSome, st, [Event.acquire, Event.release]) := by
  simp [isDriverAPIAvailable, h]

theorem probe_eq_miss {env : Env} {st : DriverState} {n : String}
    (h : lookupTable st.loaded_apis n = none) (v : Nat) :
    isDriverAPIAvailable env st n v =
      ((getDriverEntryPoint env n v).1.isSome,
        { st with loaded_apis := setTable st.loaded_apis n (getDriverEntryPoint env n v).1 },
        [Event.acquire] ++ (getDriverEntryPoint env n v).2 ++
          [Event.writeTable n (getDriverEntryPoint env n v).1, Event.release]) := by
  simp [isDriverAPIAvailable, h]

theorem version_eq_hit {env : Env} {st : DriverState}
    (h : 0 ≤ st.cached_driver_version) :
    getDriverVersion env st = (st.cached_driver_version, st, []) := by
  simp [getDriverVersion, h]

theorem version_eq_ok {env : Env} {st : DriverState} {v : Int}
    (h : ¬ 0 ≤ st.cached_driver_version) (hv : env.rawDriverVersion = .ok v) :
    getDriverVersion env st =
      (v, { st with cached_driver_version := v },
        [Event.versionQuery, Event.writeVersion v]) := by
  simp [getDriverVersion, h, hv]

theorem version_eq_err {env : Env} {st : DriverState} {e : String}
    (h : ¬ 0 ≤ st.cached_driver_version) (hv : env.rawDriverVersion = .error e) :
    getDriverVersion env st =
      (-1, st, [Event.versionQuery, Event.warn ("Failed to get CUDA driver version: " ++ e)]) := by
  simp [getDriverVersion, h, hv]

/-! ### Exhaustive case analysis of a slot invocation -/

theorem slot_cases (env : Env) (st : DriverState) (n : String) (v d : Nat) :
    (∃ p, lookupTable st.slotMemo n = some (some p) ∧
      lazilyLoadAndInvoke env st n v d = (.invoked p, st, [Event.nativeCall n p])) ∨
    (lookupTable st.slotMemo n = some none ∧
      lazilyLoadAndInvoke env st n v d = (.unavailable (unavailableMsg n), st, [])) ∨
    (lookupTable st.slotMemo n = none ∧ 0 < d ∧
      lazilyLoadAndInvoke env st n v d = (.deadlock, st, [Event.acquire])) ∨
    (d = 0 ∧ lookupTable st.slotMemo n = none ∧
      ((∃ p, lookupTable st.loaded_apis n = some (some p) ∧
          lazilyLoadAndInvoke env st n v d =
            (.invoked p, { st with slotMemo := setTable st.slotMemo n (some p) },
              [Event.acquire, Event.release, Event.nativeCall n p])) ∨
       (lookupTable st.loaded_apis n = some none ∧
          lazilyLoadAndInvoke env st n v d =
            (.unavailable (unavailableMsg n),
              { st with slotMemo := setTable st.slotMemo n none },
              [Event.acquire, Event.release])) ∨
       (∃ p, lookupTable st.loaded_apis n = none ∧ (getDriverEntryPoint env n v).1 = some p ∧
          lazilyLoadAndInvoke env st n v d =
            (.invoked p,
              { st with loaded_apis := setTable st.loaded_apis n (some p),
                        slotMemo := setTable st.slotMemo n (some p) },
              [Event.acquire] ++ (getDriverEntryPoint env n v).2 ++
                [Event.writeTable n (some p), Event.release, Event.nativeCall n p])) ∨
       (lookupTable st.loaded_apis n = none ∧ (getDriverEntryPoint env n v).1 = none ∧
          lazilyLoadAndInvoke env st n v d =
            (.unavailable (unavailableMsg n),
              { st with slotMemo := setTable st.slotMemo n none },
              [Event.acquire] ++ (getDriverEntryPoint env n v).2 ++ [Event.release])))) := by
  cases hm : lookupTable st.slotMemo n with
  | none =>
    by_cases hd : 0 < d
    · exact Or.inr (Or.inr (Or.inl ⟨rfl, hd, slot_eq_dead hm hd v⟩))
    · have hd0 : d = 0 := Nat.eq_zero_of_not_pos hd
      subst hd0
      refine Or.inr (Or.inr (Or.inr ⟨rfl, rfl, ?_⟩))
      cases ht : lookupTable st.loaded_apis n with
      | none =>
        cases hr : (getDriverEntryPoint env n v).1 with
        | none => exact Or.inr (Or.inr (Or.inr ⟨rfl, rfl, slot_eq_miss_none hm ht hr⟩))
        | some p => exact Or.inr (Or.inr (Or.inl ⟨p, rfl, rfl, slot_eq_miss_some hm ht hr⟩))
      | some c =>
        cases c with
        | none => exact Or.inr (Or.inl ⟨rfl, slot_eq_hit_none hm ht v⟩)
        | some p => exact Or.inl ⟨p, rfl, slot_eq_hit_some hm ht v⟩
  | some mv =>
    cases mv with
    | none => exact Or.inr (Or.inl ⟨rfl, slot_eq_fast_none hm v d⟩)
    | some p => exact Or.inl ⟨p, rfl, slot_eq_fast_some hm v d⟩

/-! ### Frame and preservation lemmas, one operation at a time -/

theorem slot_pub_frame (env : Env) (st : DriverState) (n : String) (v d : Nat) :
    (lazilyLoadAndInvoke env st n v d).2.1.slotPub = st.slotPub ∧
    (lazilyLoadAndInvoke env st n v d).2.1.cached_driver_version =
      st.cached_driver_version := by
  rcases slot_cases env st n v d with
    ⟨p, hm, he⟩ | ⟨hm, he⟩ | ⟨hm, hd, he⟩ |
    ⟨hd, hm, ⟨p, ht, he⟩ | ⟨ht, he⟩ | ⟨p, ht, hr, he⟩ | ⟨ht, hr, he⟩⟩ <;>
    rw [he] <;> exact ⟨rfl, rfl⟩

theorem slot_memo_preserve {env : Env} {st : DriverState} {S : String} {w : Option Ptr}
    (h : lookupTable st.slotMemo S = some w) (n : String) (v d : Nat) :
    lookupTable (lazilyLoadAndInvoke env st n v d).2.1.slotMemo S = some w := by
  rcases slot_cases env st n v d with
    ⟨p, hm, he⟩ | ⟨hm, he⟩ | ⟨hm, hd, he⟩ |
    ⟨hd, hm, ⟨p, ht, he⟩ | ⟨ht, he⟩ | ⟨p, ht, hr, he⟩ | ⟨ht, hr, he⟩⟩ <;>
    rw [he] <;>
    first
      | exact h
      | exact lookupTable_setTable_preserve h hm _

theorem slot_table_preserve {env : Env} {st : DriverState} {S : String} {w : Option Ptr}
    (h : lookupTable st.loaded_apis S = some w) (n : String) (v d : Nat) :
    lookupTable (lazilyLoadAndInvoke env st n v d).2.1.loaded_apis S = some w := by
  rcases slot_cases env st n v d with
    ⟨p, hm, he⟩ | ⟨hm, he⟩ | ⟨hm, hd, he⟩ |
    ⟨hd, hm, ⟨p, ht, he⟩ | ⟨ht, he⟩ | ⟨p, ht, hr, he⟩ | ⟨ht, hr, he⟩⟩ <;>
    rw [he] <;>
    first
      | exact h
      | exact lookupTable_setTable_preserve h ht _

theorem probe_pub_frame (env : Env) (st : DriverState) (n : String) (v : Nat) :
    (isDriverAPIAvailable env st n v).2.1.slotPub = st.slotPub ∧
    (isDriverAPIAvailable env st n v).2.1.cached_driver_version =
      st.cached_driver_version ∧
    (isDriverAPIAvailable env st n v).2.1.slotMemo = st.slotMemo := by
  rcases ht : lookupTable st.loaded_apis n with _ | c
  · rw [probe_eq_miss ht]
    exact ⟨rfl, rfl, rfl⟩
  · rw [probe_eq_hit ht]
    exact ⟨rfl, rfl, rfl⟩

theorem probe_table_preserve {env : Env} {st : DriverState} {S : String} {w : Option Ptr}
    (h : lookupTable st.loaded_apis S = some w) (n : String) (v : Nat) :
    lookupTable (isDriverAPIAvailable env st n v).2.1.loaded_apis S = some w := by
  rcases ht : lookupTable st.loaded_apis n with _ | c
  · rw [probe_eq_miss ht]
    exact lookupTable_setTable_preserve h ht _
  · rw [probe_eq_hit ht]
    exact h

theorem version_frame (env : Env) (st : DriverState) :
    (getDriverVersion env st).2.1.slotPub = st.slotPub ∧
    (getDriverVersion env st).2.1.slotMemo = st.slotMemo ∧
    (getDriverVersion env st).2.1.loaded_apis = st.loaded_apis := by
  by_cases h : 0 ≤ st.cached_driver_version
  · rw [version_eq_hit h]
    exact ⟨rfl, rfl, rfl⟩
  · rcases hv : env.rawDriverVersion with e | w
    · rw [version_eq_err h hv]
      exact ⟨rfl, rfl, rfl⟩
    · rw [version_eq_ok h hv]
      exact ⟨rfl, rfl, rfl⟩

theorem gdep_no_native (env : Env) (n : String) (v : Nat) (S : String) (p : Ptr) :
    Event.nativeCall S p ∉ (getDriverEntryPoint env n v).2 := by
  rcases hr : env.rawGetEntryPoint n v with e | q <;> simp [getDriverEntryPoint, hr]

/-- At lock depth 1 — inside `initializeDriverAPI`, which already holds
`driver_api_mutex` — a slot invocation is a memo fast path or a
self-deadlock; it never mutates the state. -/
theorem slot_depth1_cases (env : Env) (st : DriverState) (n : String) (v : Nat) :
    (∃ p, lookupTable st.slotMemo n = some (some p) ∧
      lazilyLoadAndInvoke env st n v 1 = (.invoked p, st, [Event.nativeCall n p])) ∨
    (lookupTable st.slotMemo n = some none ∧
      lazilyLoadAndInvoke env st n v 1 = (.unavailable (unavailableMsg n), st, [])) ∨
    (lookupTable st.slotMemo n = none ∧
      lazilyLoadAndInvoke env st n v 1 = (.deadlock, st, [Event.acquire])) := by
  rcases slot_cases env st n v 1 with
    ⟨p, hm, he⟩ | ⟨hm, he⟩ | ⟨hm, hd, he⟩ |
    ⟨hd, hm, hrest⟩
  · exact Or.inl ⟨p, hm, he⟩
  · exact Or.inr (Or.inl ⟨hm, he⟩)
  · exact Or.inr (Or.inr ⟨hm, he⟩)
  · exact absurd hd (by omega)

/-- Full characterization of `initializeDriverAPI`: it never mutates the
state (its inner slot calls run at lock depth 1, so they are fast paths or
deadlocks), its trace contains no resolver query and no table write, its
trace is lock-balanced when it completes, and every native call it makes
goes through an already-memoized slot pointer. -/
theorem init_spec (env : Env) (st : DriverState) :
    (initializeDriverAPI env st).2.1 = st ∧
    (∀ S, resolveCount (initializeDriverAPI env st).2.2 S = 0) ∧
    tableWritesLocked 0 (initializeDriverAPI env st).2.2 = true ∧
    ((initializeDriverAPI env st).1 = .done →
      depthAfter 0 (initializeDriverAPI env st).2.2 = 0) ∧
    (∀ S p, Event.nativeCall S p ∈ (initializeDriverAPI env st).2.2 →
      lookupTable st.slotMemo S = some (some p)) := by
  rcases slot_depth1_cases env st "cuInit" 11000 with ⟨p, hm, he⟩ | ⟨hm, he⟩ | ⟨hm, he⟩
  · by_cases hz : env.cuInitRet p = 0
    · refine ⟨?_, ?_, ?_, ?_, ?_⟩ <;>
        simp [initializeDriverAPI, he, hz, resolveCount, tableWritesLocked, depthAfter]
      exact hm
    · rcases slot_depth1_cases env st "cuGetErrorString" 11000 with
        ⟨q, hm2, he2⟩ | ⟨hm2, he2⟩ | ⟨hm2, he2⟩
      · refine ⟨?_, ?_, ?_, ?_, ?_⟩ <;>
          simp [initializeDriverAPI, he, he2, hz, resolveCount, tableWritesLocked, depthAfter]
        intro S r hSr
        rcases hSr with ⟨hS, hr⟩ | ⟨hS, hr⟩
        · subst hS; subst hr; exact hm
        · subst hS; subst hr; exact hm2
      · refine ⟨?_, ?_, ?_, ?_, ?_⟩ <;>
          simp [initializeDriverAPI, he, he2, hz, resolveCount, tableWritesLocked, depthAfter]
        exact hm
      · refine ⟨?_, ?_, ?_, ?_, ?_⟩ <;>
          simp [initializeDriverAPI, he, he2, hz, resolveCount, tableWritesLocked, depthAfter]
        exact hm
  · refine ⟨?_, ?_, ?_, ?_, ?_⟩ <;>
      simp [initializeDriverAPI, he, resolveCount, tableWritesLocked, depthAfter]
  · refine ⟨?_, ?_, ?_, ?_, ?_⟩ <;>
      simp [initializeDriverAPI, he, resolveCount, tableWritesLocked, depthAfter]

/-! ### Lemmas about a single operation of the run semantics -/

theorem runOp_pub_frame (env : Env) (st : DriverState) (op : Op) :
    (runOp env st op).2.1.slotPub = st.slotPub := by
  cases op with
  | slot n v => simpa using (slot_pub_frame env st n v 0).1
  | probe n v => simpa using (probe_pub_frame env st n v).1
  | version => simpa using (version_frame env st).1
  | initAPI =>
    have h := (init_spec env st).1
    simp only [runOp]
    rw [h]

theorem runOp_memo_preserve {env : Env} {st : DriverState} {S : String} {w : Option Ptr}
    (h : lookupTable st.slotMemo S = some w) (op : Op) :
    lookupTable (runOp env st op).2.1.slotMemo S = some w := by
  cases op with
  | slot n v => simpa using slot_memo_preserve h n v 0
  | probe n v =>
    have hf := (probe_pub_frame env st n v).2.2
    simp only [runOp]
    rw [hf]
    exact h
  | version =>
    have hf := (version_frame env st).2.1
    simp only [runOp]
    rw [hf]
    exact h
  | initAPI =>
    have hf := (init_spec env st).1
    simp only [runOp]
    rw [hf]
    exact h

theorem runOp_table_preserve {env : Env} {st : DriverState} {S : String} {w : Option Ptr}
    (h : lookupTable st.loaded_apis S = some w) (op : Op) :
    lookupTable (runOp env st op).2.1.loaded_apis S = some w := by
  cases op with
  | slot n v => simpa using slot_table_preserve h n v 0
  | probe n v => simpa using probe_table_preserve h n v
  | version =>
    have hf := (version_frame env st).2.2
    simp only [runOp]
    rw [hf]
    exact h
  | initAPI =>
    have hf := (init_spec env st).1
    simp only [runOp]
    rw [hf]
    exact h

theorem runOp_resolve_bound (env : Env) (st : DriverState) (op : Op) (S : String) :
    resolveCount (runOp env st op).2.2 S + flagSum st S ≤
      flagSum (runOp env st op).2.1 S := by
  cases op with
  | slot n v =>
    simp only [runOp]
    rcases slot_cases env st n v 0 with
      ⟨p, hm, he⟩ | ⟨hm, he⟩ | ⟨hm, hd, he⟩ |
      ⟨hd, hm, ⟨p, ht, he⟩ | ⟨ht, he⟩ | ⟨p, ht, hr, he⟩ | ⟨ht, hr, he⟩⟩
    · rw [he]; simp [resolveCount]
    · rw [he]; simp [resolveCount]
    · exact absurd hd (by omega)
    · rw [he]
      by_cases hS : n = S
      · subst hS
        simp [resolveCount, flagSum, hm, ht, lookupTable_setTable_self] <;> omega
      · simp [resolveCount, flagSum, lookupTable_setTable_of_ne _ hS] <;> omega
    · rw [he]
      by_cases hS : n = S
      · subst hS
        simp [resolveCount, flagSum, hm, ht, lookupTable_setTable_self] <;> omega
      · simp [resolveCount, flagSum, lookupTable_setTable_of_ne _ hS] <;> omega
    · rw [he]
      by_cases hS : n = S
      · subst hS
        simp [resolveCount_append, getDriverEntryPoint_resolveCount, resolveCount_acquire,
          resolveCount_writeTable, resolveCount_release, resolveCount_nativeCall,
          resolveCount_nil, flagSum, hm, ht, lookupTable_setTable_self] <;> omega
      · simp [resolveCount_append, getDriverEntryPoint_resolveCount, resolveCount_acquire,
          resolveCount_writeTable, resolveCount_release, resolveCount_nativeCall,
          resolveCount_nil, flagSum, hS, lookupTable_setTable_of_ne _ hS] <;> omega
    · rw [he]
      by_cases hS : n = S
      · subst hS
        simp [resolveCount_append, getDriverEntryPoint_resolveCount, resolveCount_acquire,
          resolveCount_release, resolveCount_nil, flagSum, hm, ht,
          lookupTable_setTable_self] <;> omega
      · simp [resolveCount_append, getDriverEntryPoint_resolveCount, resolveCount_acquire,
          resolveCount_release, resolveCount_nil, flagSum, hS,
          lookupTable_setTable_of_ne _ hS] <;> omega
  | probe n v =>
    simp only [runOp]
    cases ht : lookupTable st.loaded_apis n with
    | none =>
      rw [probe_eq_miss ht]
      by_cases hS : n = S
      · subst hS
        simp [resolveCount_append, getDriverEntryPoint_resolveCount, resolveCount_acquire,
          resolveCount_writeTable, resolveCount_release, resolveCount_nil, flagSum, ht,
          lookupTable_setTable_self] <;> omega
      · simp [resolveCount_append, getDriverEntryPoint_resolveCount, resolveCount_acquire,
          resolveCount_writeTable, resolveCount_release, resolveCount_nil, flagSum, hS,
          lookupTable_setTable_of_ne _ hS] <;> omega
    | some c =>
      rw [probe_eq_hit ht]
      simp [resolveCount]
  | version =>
    simp only [runOp]
    by_cases h : 0 ≤ st.cached_driver_version
    · rw [version_eq_hit h]; simp [resolveCount]
    · rcases hv : env.rawDriverVersion with e | w
      · rw [version_eq_err h hv]; simp [resolveCount, flagSum]
      · rw [version_eq_ok h hv]; simp [resolveCount, flagSum]
  | initAPI =>
    simp only [runOp]
    have hst := (init_spec env st).1
    have hres := (init_spec env st).2.1 S
    rw [hst, hres]
    omega

theorem runOp_nativeCall {env : Env} {st : DriverState} {op : Op} {S : String} {p : Ptr}
    (h : Event.nativeCall S p ∈ (runOp env st op).2.2) :
    lookupTable (runOp env st op).2.1.slotMemo S = some (some p) := by
  cases op with
  | slot n v =>
    simp only [runOp] at h ⊢
    rcases slot_cases env st n v 0 with
      ⟨q, hm, he⟩ | ⟨hm, he⟩ | ⟨hm, hd, he⟩ |
      ⟨hd, hm, ⟨q, ht, he⟩ | ⟨ht, he⟩ | ⟨q, ht, hr, he⟩ | ⟨ht, hr, he⟩⟩
    · rw [he] at h ⊢
      simp at h
      rcases h with ⟨hS, hp⟩
      subst hS; subst hp
      exact hm
    · rw [he] at h
      simp at h
    · exact absurd hd (by omega)
    · rw [he] at h ⊢
      simp at h
      rcases h with ⟨hS, hp⟩
      subst hS; subst hp
      exact lookupTable_setTable_self _ _ _
    · rw [he] at h
      simp at h
    · rw [he] at h ⊢
      simp at h
      rcases h with h | ⟨hS, hp⟩
      · exact absurd h (gdep_no_native env n v S p)
      · subst hS; subst hp
        exact lookupTable_setTable_self _ _ _
    · rw [he] at h
      simp at h
      exact absurd h (gdep_no_native env n v S p)
  | probe n v =>
    simp only [runOp] at h ⊢
    cases ht : lookupTable st.loaded_apis n with
    | none =>
      rw [probe_eq_miss ht] at h
      simp at h
      exact absurd h (gdep_no_native env n v S p)
    | some c =>
      rw [probe_eq_hit ht] at h
      simp at h
  | version =>
    simp only [runOp] at h ⊢
    by_cases hc : 0 ≤ st.cached_driver_version
    · rw [version_eq_hit hc] at h
      simp at h
    · rcases hv : env.rawDriverVersion with e | w
      · rw [version_eq_err hc hv] at h
        simp at h
      · rw [version_eq_ok hc hv] at h
        simp at h
  | initAPI =>
    simp only [runOp] at h ⊢
    have hst := (init_spec env st).1
    have hn := (init_spec env st).2.2.2.2 S p h
    rw [hst]
    exact hn

theorem runOp_locked (env : Env) (st : DriverState) (op : Op) :
    tableWritesLocked 0 (runOp env st op).2.2 = true ∧
    ((runOp env st op).1 = false → depthAfter 0 (runOp env st op).2.2 = 0) := by
  cases op with
  | slot n v =>
    simp only [runOp]
    rcases slot_cases env st n v 0 with
      ⟨q, hm, he⟩ | ⟨hm, he⟩ | ⟨hm, hd, he⟩ |
      ⟨hd, hm, ⟨q, ht, he⟩ | ⟨ht, he⟩ | ⟨q, ht, hr, he⟩ | ⟨ht, hr, he⟩⟩
    · rw [he]; exact ⟨rfl, fun _ => rfl⟩
    · rw [he]; exact ⟨rfl, fun _ => rfl⟩
    · exact absurd hd (by omega)
    · rw [he]; exact ⟨rfl, fun _ => rfl⟩
    · rw [he]; exact ⟨rfl, fun _ => rfl⟩
    · rw [he]
      constructor
      · simp [tableWritesLocked_append, tableWritesLocked,
          getDriverEntryPoint_tableWritesLocked, getDriverEntryPoint_depthAfter, depthAfter]
      · intro _
        simp [depthAfter_append, depthAfter, getDriverEntryPoint_depthAfter]
    · rw [he]
      constructor
      · simp [tableWritesLocked_append, tableWritesLocked,
          getDriverEntryPoint_tableWritesLocked, getDriverEntryPoint_depthAfter, depthAfter]
      · intro _
        simp [depthAfter_append, depthAfter, getDriverEntryPoint_depthAfter]
  | probe n v =>
    simp only [runOp]
    cases ht : lookupTable st.loaded_apis n with
    | none =>
      rw [probe_eq_miss ht]
      constructor
      · simp [tableWritesLocked_append, tableWritesLocked,
          getDriverEntryPoint_tableWritesLocked, getDriverEntryPoint_depthAfter, depthAfter]
      · intro _
        simp [depthAfter_append, depthAfter, getDriverEntryPoint_depthAfter]
    | some c =>
      rw [probe_eq_hit ht]
      exact ⟨rfl, fun _ => rfl⟩
  | version =>
    simp only [runOp]
    by_cases hc : 0 ≤ st.cached_driver_version
    · rw [version_eq_hit hc]; exact ⟨rfl, fun _ => rfl⟩
    · rcases hv : env.rawDriverVersion with e | w
      · rw [version_eq_err hc hv]; exact ⟨rfl, fun _ => rfl⟩
      · rw [version_eq_ok hc hv]; exact ⟨rfl, fun _ => rfl⟩
  | initAPI =>
    simp only [runOp]
    refine ⟨(init_spec env st).2.2.1, fun hdone => ?_⟩
    apply (init_spec env st).2.2.2.1
    cases hi : (initializeDriverAPI env st).1 with
    | done => rfl
    | deadlock =>
      rw [hi] at hdone
      exact absurd hdone (by simp [InitResult.isDeadlock])

/-! ### Lemmas about whole runs -/

theorem flagSum_le_two (st : DriverState) (S : String) : flagSum st S ≤ 2 := by
  unfold flagSum
  by_cases h1 : (lookupTable st.slotMemo S).isSome <;>
    by_cases h2 : (lookupTable st.loaded_apis S).isSome <;> simp [h1, h2]

theorem run_pub_frame (env : Env) (st : DriverState) (ops : List Op) :
    (run env st ops).1.slotPub = st.slotPub := by
  induction ops generalizing st with
  | nil => rfl
  | cons op rest ih =>
    cases hb : (runOp env st op).1 with
    | false =>
      simp only [run, hb, Bool.false_eq_true, if_false]
      rw [ih]
      exact runOp_pub_frame env st op
    | true =>
      simp only [run, hb, if_true]
      exact runOp_pub_frame env st op

theorem run_memo_preserve {env : Env} {st : DriverState} {S : String} {w : Option Ptr}
    (h : lookupTable st.slotMemo S = some w) (ops : List Op) :
    lookupTable (run env st ops).1.slotMemo S = some w := by
  induction ops generalizing st with
  | nil => exact h
  | cons op rest ih =>
    cases hb : (runOp env st op).1 with
    | false =>
      simp only [run, hb, Bool.false_eq_true, if_false]
      exact ih (runOp_memo_preserve h op)
    | true =>
      simp only [run, hb, if_true]
      exact runOp_memo_preserve h op

theorem run_table_preserve {env : Env} {st : DriverState} {S : String} {w : Option Ptr}
    (h : lookupTable st.loaded_apis S = some w) (ops : List Op) :
    lookupTable (run env st ops).1.loaded_apis S = some w := by
  induction ops generalizing st with
  | nil => exact h
  | cons op rest ih =>
    cases hb : (runOp env st op).1 with
    | false =>
      simp only [run, hb, Bool.false_eq_true, if_false]
      exact ih (runOp_table_preserve h op)
    | true =>
      simp only [run, hb, if_true]
      exact runOp_table_preserve h op

theorem run_resolve_bound (env : Env) (st : DriverState) (ops : List Op) (S : String) :
    resolveCount (run env st ops).2 S + flagSum st S ≤ flagSum (run env st ops).1 S := by
  induction ops generalizing st with
  | nil => simp [run, resolveCount_nil]
  | cons op rest ih =>
    cases hb : (runOp env st op).1 with
    | false =>
      simp only [run, hb, Bool.false_eq_true, if_false]
      have h1 := runOp_resolve_bound env st op S
      have h2 := ih (runOp env st op).2.1
      rw [resolveCount_append]
      omega
    | true =>
      simp only [run, hb, if_true]
      exact runOp_resolve_bound env st op S

theorem run_nativeCall {env : Env} {st : DriverState} {ops : List Op} {S : String} {p : Ptr}
    (h : Event.nativeCall S p ∈ (run env st ops).2) :
    lookupTable (run env st ops).1.slotMemo S = some (some p) := by
  induction ops generalizing st with
  | nil => simp [run] at h
  | cons op rest ih =>
    cases hb : (runOp env st op).1 with
    | false =>
      simp only [run, hb, Bool.false_eq_true, if_false] at h ⊢
      rw [List.mem_append] at h
      rcases h with h | h
      · exact run_memo_preserve (runOp_nativeCall h) rest
      · exact ih h
    | true =>
      simp only [run, hb, if_true] at h ⊢
      exact runOp_nativeCall h

theorem run_tableWritesLocked (env : Env) (st : DriverState) (ops : List Op) :
    tableWritesLocked 0 (run env st ops).2 = true := by
  induction ops generalizing st with
  | nil => rfl
  | cons op rest ih =>
    cases hb : (runOp env st op).1 with
    | false =>
      simp only [run, hb, Bool.false_eq_true, if_false]
      rw [tableWritesLocked_append, (runOp_locked env st op).1,
        (runOp_locked env st op).2 hb, ih]
      rfl
    | true =>
      simp only [run, hb, if_true]
      exact (runOp_locked env st op).1

theorem run_append_table_preserve {env : Env} {st : DriverState} {S : String}
    {v : Option Ptr} (ops1 ops2 : List Op)
    (h : lookupTable (run env st ops1).1.loaded_apis S = some v) :
    lookupTable (run env st (ops1 ++ ops2)).1.loaded_apis S = some v := by
  induction ops1 generalizing st with
  | nil =>
    simp only [List.nil_append]
    exact run_table_preserve h ops2
  | cons op rest ih =>
    cases hb : (runOp env st op).1 with
    | false =>
      simp only [List.cons_append, run, hb, Bool.false_eq_true, if_false] at h ⊢
      exact ih h
    | true =>
      simp only [List.cons_append, run, hb, if_true] at h ⊢
      exact h

/-! ### The claims -/

/-- C1 counterexample: with a runtime whose lookup fails for
`cuStreamCreate`, one slot invocation followed by one availability probe
for the same symbol queries the Resolver twice — the failed slot resolution
leaves no table entry, so the probe re-resolves.  This refutes the claim
that the Resolver is invoked at most once for a symbol across slot
invocations and availability probes. -/
theorem C1_resolver_twice_counterexample :
    ¬ (resolveCount (run envFail initState
        [Op.slot "cuStreamCreate" 11000, Op.probe "cuStreamCreate" 11000]).2
        "cuStreamCreate" ≤ 1) := by decide

/-- C1 (amended): across any serial sequence of slot invocations and
availability probes, the Resolver is invoked for a symbol `S` at most
twice (at most once via the slot path and at most once via the probe path,
the second query arising only when a failed slot resolution left no table
entry), and all slot invocations that adopt a pointer for `S` invoke the
same resolved pointer. -/
theorem C1_resolver_at_most_twice_and_agreement (env : Env) (ops : List Op) (S : String) :
    resolveCount (run env initState ops).2 S ≤ 2 ∧
    ∀ p q : Ptr, Event.nativeCall S p ∈ (run env initState ops).2 →
      Event.nativeCall S q ∈ (run env initState ops).2 → p = q := by
  constructor
  · have h1 := run_resolve_bound env initState ops S
    have h2 := flagSum_le_two (run env initState ops).1 S
    have h0 : flagSum initState S = 0 := rfl
    omega
  · intro p q hp hq
    have h1 := run_nativeCall hp
    have h2 := run_nativeCall hq
    rw [h1] at h2
    simpa using h2

/-- C1 witness: a successfully resolved symbol invoked twice adopts the
same pointer both times. -/
theorem C1_agreement_witness : (7 : Ptr) = 7 :=
  (C1_resolver_at_most_twice_and_agreement envOk7
      [Op.slot "cuGetErrorName" 11000, Op.slot "cuGetErrorName" 11000]
      "cuGetErrorName").2 7 7 (by decide) (by decide)

/-- C2: whenever the pointer a slot adopts is null, invoking the slot
produces the hard `TORCH_CHECK` error whose message names the symbol and
points at a driver/ABI mismatch, never a silently returned value; and the
adopted pointer is still null afterwards, so every subsequent invocation
fails the same way until process restart. -/
theorem C2_null_slot_hard_error (env : Env) (st : DriverState) (name : String) (ver : Nat)
    (h : adoptedValue env st name ver = none) :
    (lazilyLoadAndInvoke env st name ver 0).1 = .unavailable (unavailableMsg name) ∧
    adoptedValue env (lazilyLoadAndInvoke env st name ver 0).2.1 name ver = none := by
  cases hm : lookupTable st.slotMemo name with
  | some w =>
    have hw : w = none := by
      unfold adoptedValue at h
      rw [hm] at h
      exact h
    subst hw
    rw [slot_eq_fast_none hm]
    exact ⟨rfl, by simp [adoptedValue, hm]⟩
  | none =>
    cases ht : lookupTable st.loaded_apis name with
    | some c =>
      have hc : c = none := by
        unfold adoptedValue at h
        rw [hm, ht] at h
        exact h
      subst hc
      rw [slot_eq_hit_none hm ht]
      exact ⟨rfl, by simp [adoptedValue, lookupTable_setTable_self]⟩
    | none =>
      have hr : (getDriverEntryPoint env name ver).1 = none := by
        unfold adoptedValue at h
        rw [hm, ht] at h
        exact h
      rw [slot_eq_miss_none hm ht hr]
      exact ⟨rfl, by simp [adoptedValue, lookupTable_setTable_self]⟩

/-- C2 witness: under the failing runtime, the `cuStreamCreate` slot adopts
null and its invocation raises the descriptive hard error. -/
theorem C2_null_slot_hard_error_witness :
    (lazilyLoadAndInvoke envFail initState "cuStreamCreate" 11000 0).1 =
      SlotResult.unavailable (unavailableMsg "cuStreamCreate") :=
  (C2_null_slot_hard_error envFail initState "cuStreamCreate" 11000 (by decide)).1

/-- C3 counterexample: after the first invocation of a slot whose
resolution fails (the Resolver returns null), the Symbol Table contains NO
entry for the symbol — the slot stores the result only when it is non-null
(`driver_api.cpp` lines 122-124) — refuting the claim that the slot stores
whatever the Resolver returns, including null, so that the table contains
an entry after any resolution attempt. -/
theorem C3_failed_resolution_not_stored :
    lookupTable (lazilyLoadAndInvoke envFail initState "cuStreamCreate" 11000 0).2.1.loaded_apis
      "cuStreamCreate" = none := by decide

/-- C3 (amended): on the first invocation of a slot whose name is in
neither its static memo nor the Symbol Table, the slot queries the Resolver
exactly once and stores the result into the Symbol Table only when it is
non-null; after a failed resolution the table has no entry for the symbol,
but the slot memoizes the null result in its own static cell, so a repeated
slot invocation performs no further Resolver query. -/
theorem C3_slot_stores_only_nonnull (env : Env) (st : DriverState) (n : String) (ver : Nat)
    (h1 : lookupTable st.slotMemo n = none) (h2 : lookupTable st.loaded_apis n = none) :
    resolveCount (lazilyLoadAndInvoke env st n ver 0).2.2 n = 1 ∧
    lookupTable (lazilyLoadAndInvoke env st n ver 0).2.1.slotMemo n =
      some (getDriverEntryPoint env n ver).1 ∧
    (∀ p, (getDriverEntryPoint env n ver).1 = some p →
      lookupTable (lazilyLoadAndInvoke env st n ver 0).2.1.loaded_apis n = some (some p)) ∧
    ((getDriverEntryPoint env n ver).1 = none →
      lookupTable (lazilyLoadAndInvoke env st n ver 0).2.1.loaded_apis n = none) ∧
    resolveCount
      (lazilyLoadAndInvoke env (lazilyLoadAndInvoke env st n ver 0).2.1 n ver 0).2.2 n = 0 := by
  cases hr : (getDriverEntryPoint env n ver).1 with
  | some p =>
    rw [slot_eq_miss_some h1 h2 hr]
    refine ⟨?_, ?_, ?_, ?_, ?_⟩
    · simp [resolveCount_append, resolveCount_acquire, resolveCount_writeTable,
        resolveCount_release, resolveCount_nativeCall, resolveCount_nil,
        getDriverEntryPoint_resolveCount]
    · simp [lookupTable_setTable_self]
    · intro q hq
      have hpq : p = q := by simpa using hq
      subst hpq
      simp [lookupTable_setTable_self]
    · intro hq
      exact Option.noConfusion hq
    · rw [slot_eq_fast_some (lookupTable_setTable_self _ _ _)]
      simp [resolveCount_nativeCall, resolveCount_nil]
  | none =>
    rw [slot_eq_miss_none h1 h2 hr]
    refine ⟨?_, ?_, ?_, ?_, ?_⟩
    · simp [resolveCount_append, resolveCount_acquire, resolveCount_release,
        resolveCount_nil, getDriverEntryPoint_resolveCount]
    · simp [lookupTable_setTable_self]
    · intro q hq
      exact Option.noConfusion hq
    · intro _
      exact h2
    · rw [slot_eq_fast_none (lookupTable_setTable_self _ _ _)]
      rfl

/-- C3 witness: a fresh failed resolution performs exactly one Resolver
query. -/
theorem C3_slot_stores_only_nonnull_witness :
    resolveCount (lazilyLoadAndInvoke envFail initState "cuStreamCreate" 11000 0).2.2
      "cuStreamCreate" = 1 :=
  (C3_slot_stores_only_nonnull envFail initState "cuStreamCreate" 11000
    (by decide) (by decide)).1

/-- C4: `isDriverAPIAvailable` returns non-nullness of the cached pointer
when the name is already in the Symbol Table (leaving the state untouched);
otherwise it performs exactly one resolution, stores the outcome — even
null — into the table, and returns whether the outcome was non-null; in
particular for an unresolvable name it returns `false` without failing and
leaves a null entry in the table. -/
theorem C4_isDriverAPIAvailable_spec (env : Env) (st : DriverState) (n : String) (v : Nat) :
    (∀ c, lookupTable st.loaded_apis n = some c →
      (isDriverAPIAvailable env st n v).1 = c.isSome ∧
      (isDriverAPIAvailable env st n v).2.1 = st) ∧
    (lookupTable st.loaded_apis n = none →
      (isDriverAPIAvailable env st n v).1 = (getDriverEntryPoint env n v).1.isSome ∧
      lookupTable (isDriverAPIAvailable env st n v).2.1.loaded_apis n =
        some (getDriverEntryPoint env n v).1 ∧
      resolveCount (isDriverAPIAvailable env st n v).2.2 n = 1) ∧
    (lookupTable st.loaded_apis n = none → (getDriverEntryPoint env n v).1 = none →
      (isDriverAPIAvailable env st n v).1 = false ∧
      lookupTable (isDriverAPIAvailable env st n v).2.1.loaded_apis n = some none) := by
  refine ⟨?_, ?_, ?_⟩
  · intro c hc
    rw [probe_eq_hit hc]
    exact ⟨rfl, rfl⟩
  · intro ht
    rw [probe_eq_miss ht]
    refine ⟨rfl, by simp [lookupTable_setTable_self], ?_⟩
    simp [resolveCount_append, resolveCount_acquire, resolveCount_writeTable,
      resolveCount_release, resolveCount_nil, getDriverEntryPoint_resolveCount]
  · intro ht hr
    rw [probe_eq_miss ht]
    constructor
    · simp [hr]
    · rw [hr]
      simp [lookupTable_setTable_self]

/-- C4 witness: probing an unresolvable symbol returns `false` and leaves a
null table entry. -/
theorem C4_isDriverAPIAvailable_witness :
    (isDriverAPIAvailable envFail initState "cuStreamCreate" 11000).1 = false ∧
    lookupTable (isDriverAPIAvailable envFail initState "cuStreamCreate" 11000).2.1.loaded_apis
      "cuStreamCreate" = some none :=
  (C4_isDriverAPIAvailable_spec envFail initState "cuStreamCreate" 11000).2.2
    (by decide) (by decide)

/-- C5: the Resolver never propagates an exception to its caller — the
`c10::Error` raised by the checked runtime call is caught, converted into a
recorded human-readable warning, and the entry point is null; null is
turned into a hard failure only by the slot-invocation `TORCH_CHECK`, not
here. -/
theorem C5_resolver_soft_failure (env : Env) (s : String) (v : Nat) :
    getDriverEntryPointE env s v = Except.ok (getDriverEntryPoint env s v) ∧
    (∀ e, env.rawGetEntryPoint s v = .error e →
      (getDriverEntryPoint env s v).1 = none ∧
      Event.warn (resolveFailMsg s e) ∈ (getDriverEntryPoint env s v).2) := by
  rcases hr : env.rawGetEntryPoint s v with e | p
  · constructor
    · simp [getDriverEntryPoint, getDriverEntryPointE, hr]
    · intro e2 he2
      have hee : e = e2 := by injection he2
      subst hee
      simp [getDriverEntryPoint, hr]
  · constructor
    · simp [getDriverEntryPoint, getDriverEntryPointE, hr]
    · intro e2 he2
      exact Except.noConfusion he2

/-- C5 witness: the failing runtime yields a null entry point with no
exception. -/
theorem C5_resolver_soft_failure_witness :
    (getDriverEntryPoint envFail "cuMemAlloc" 11000).1 = none :=
  ((C5_resolver_soft_failure envFail "cuMemAlloc" 11000).2 "symbol not found" rfl).1

/-- C6: `getDriverVersion` returns the memoized driver version with no
runtime query whenever the memo is non-negative; otherwise it queries the
runtime once, memoizing and returning the value on success, while on a
query failure it returns `-1`, leaves the memo unchanged, and a subsequent
call queries the runtime again. -/
theorem C6_getDriverVersion_memoization (env : Env) (st : DriverState) :
    (0 ≤ st.cached_driver_version →
      getDriverVersion env st = (st.cached_driver_version, st, [])) ∧
    (¬ 0 ≤ st.cached_driver_version →
      (∀ w, env.rawDriverVersion = .ok w →
        getDriverVersion env st =
          (w, { st with cached_driver_version := w },
            [Event.versionQuery, Event.writeVersion w])) ∧
      (∀ e, env.rawDriverVersion = .error e →
        (getDriverVersion env st).1 = -1 ∧
        (getDriverVersion env st).2.1 = st ∧
        Event.versionQuery ∈ (getDriverVersion env (getDriverVersion env st).2.1).2.2)) := by
  constructor
  · intro h
    exact version_eq_hit h
  · intro h
    constructor
    · intro w hw
      exact version_eq_ok h hw
    · intro e he
      rw [version_eq_err h he]
      refine ⟨rfl, rfl, ?_⟩
      rw [version_eq_err h he]
      simp

/-- C6 witness: an unmemoized state with a succeeding runtime queries once
and memoizes. -/
theorem C6_getDriverVersion_witness :
    getDriverVersion envOk7 initState =
      (12040, { initState with cached_driver_version := 12040 },
        [Event.versionQuery, Event.writeVersion 12040]) :=
  ((C6_getDriverVersion_memoization envOk7 initState).2 (by decide)).1 12040 rfl

/-- C7: across all operations that insert into the Symbol Table, the table
never holds two different non-null pointers for one name within a process
lifetime: if the table maps `S` to a non-null pointer after some prefix of
the run and to a non-null pointer after a longer prefix, the pointers are
equal. -/
theorem C7_table_nonnull_stable (env : Env) (ops1 ops2 : List Op) (S : String) (p q : Ptr)
    (h1 : lookupTable (run env initState ops1).1.loaded_apis S = some (some p))
    (h2 : lookupTable (run env initState (ops1 ++ ops2)).1.loaded_apis S = some (some q)) :
    p = q := by
  have h3 := run_append_table_preserve ops1 ops2 h1
  rw [h3] at h2
  simpa using h2

/-- C7 witness: an availability probe and a later slot invocation observe
the same non-null table entry. -/
theorem C7_table_nonnull_stable_witness : (7 : Ptr) = 7 :=
  C7_table_nonnull_stable envOk7 [Op.probe "cuInit" 11000] [Op.slot "cuInit" 11000]
    "cuInit" 7 7 (by decide) (by decide)

/-- C8: the publicly visible per-symbol function pointer never leaves the
unresolved (trampoline) state — no operation of the layer ever reassigns
it — even after the slot has successfully resolved and memoized the native
address (here `cuGetErrorName` resolved to address 7).  This contradicts
the claim (and the source's own comment) that the pointer is replaced with
the real driver function, transitioning exactly once to the resolved
state. -/
theorem C8_public_pointer_never_swapped :
    (∀ (env : Env) (ops : List Op) (n : String),
      pubOf (run env initState ops).1 n = SlotPub.trampoline) ∧
    pubOf (run envOk7 initState [Op.slot "cuGetErrorName" 11000]).1 "cuGetErrorName" =
      SlotPub.trampoline ∧
    lookupTable (run envOk7 initState [Op.slot "cuGetErrorName" 11000]).1.slotMemo
      "cuGetErrorName" = some (some 7) := by
  refine ⟨?_, by decide, by decide⟩
  intro env ops n
  unfold pubOf
  rw [run_pub_frame]
  rfl

/-- C9 counterexample: a successful `getDriverVersion` on a fresh state
writes the memoized driver version at lock depth 0 — the source takes no
lock in `getDriverVersion` — refuting the claim that every mutation of the
memoized Driver Version occurs while the shared lock is held. -/
theorem C9_version_write_unlocked_counterexample :
    allWritesLocked 0 (run envOk7 initState [Op.version]).2 = false := by decide

/-- C9 (amended): every mutation of the Symbol Table occurs while the
shared lock is held; the memoized Driver Version, however, is written by
`getDriverVersion` without acquiring the shared lock. -/
theorem C9_table_writes_locked (env : Env) (ops : List Op) :
    tableWritesLocked 0 (run env initState ops).2 = true :=
  run_tableWritesLocked env initState ops

/-- C10: `initializeDriverAPI` holds `driver_api_mutex` while invoking the
`cuInit` and `cuGetErrorString` names, which resolve to this layer's lazy
slots; if the call is the first-ever use of the `cuInit` slot — or `cuInit`
is resolved but returns non-success and the call is the first-ever use of
the `cuGetErrorString` slot — the slot's one-time initialization tries to
acquire the same non-recursive mutex on the same thread and the call never
completes. -/
theorem C10_initializeDriverAPI_self_deadlock (env : Env) (st : DriverState)
    (h : lookupTable st.slotMemo "cuInit" = none ∨
      (∃ p, lookupTable st.slotMemo "cuInit" = some (some p) ∧ env.cuInitRet p ≠ 0 ∧
        lookupTable st.slotMemo "cuGetErrorString" = none)) :
    (initializeDriverAPI env st).1 = .deadlock := by
  rcases h with h | ⟨p, hm, hz, hm2⟩
  · have he := @slot_eq_dead env st "cuInit" 1 h (by omega) 11000
    simp [initializeDriverAPI, he]
  · have he1 := @slot_eq_fast_some env st "cuInit" p hm 11000 1
    have he2 := @slot_eq_dead env st "cuGetErrorString" 1 hm2 (by omega) 11000
    simp [initializeDriverAPI, he1, he2, hz]

/-- C10 witness: on a fresh process state, where no slot static is
initialized, `initializeDriverAPI` self-deadlocks on its inner `cuInit`
slot call. -/
theorem C10_self_deadlock_witness :
    (initializeDriverAPI envOk7 initState).1 = InitResult.deadlock :=
  C10_initializeDriverAPI_self_deadlock envOk7 initState (Or.inl (by decide))

end DriverApi
